import Mathlib

/-!
Shallow embedding of the solicitor-dict data pipeline
(`src/utils/validators.py`, `src/collectors/sra_api_client.py`,
`src/collectors/sra_collector.py`, `generate_outputs.py`) and proofs of the
frozen claims about it.

Modelling conventions:
* Python dictionaries holding JSON-decoded data are association lists
  `List (String × PyVal)`; `dict.get` is association-list lookup.
* Machine text is `String`/`List Char`; character classes are ASCII
  (`\d` is modelled as the ASCII digits 0-9, `[A-Z]` as the ASCII upper
  letters, `\s` as the six ASCII whitespace characters).  The regular
  expression anchor `$` is modelled with CPython semantics: it matches at
  the end of the string or just before a single trailing newline.
* Python floats never have their numeric value inspected by the code under
  verification, only their `str()` form and truthiness, so a float is
  carried as its printed representation.
* Exceptions that the Python code can raise and does not catch are
  modelled with `Except String`; code that cannot raise is a plain function.
-/

namespace SolicitorDict

/-- ASCII upper-case letter, the class `[A-Z]` of the Python regexes. -/
def isUpperL (c : Char) : Bool := 'A' ≤ c && c ≤ 'Z'

/-- ASCII digit, the class `\d` of the Python regexes (ASCII model). -/
def isDigitC (c : Char) : Bool := '0' ≤ c && c ≤ '9'

/-- ASCII whitespace, the class `\s` of the Python regexes (ASCII model). -/
def isSpaceC (c : Char) : Bool :=
  c == ' ' || c == '\t' || c == '\n' || c == '\r' || c == '\x0b' || c == '\x0c'

/-- The class `[A-Z\d]` of the postcode regex. -/
def isAlnumUC (c : Char) : Bool := isUpperL c || isDigitC c

/-- Python `str.upper()` on one character (ASCII model). -/
def pyUpperChar (c : Char) : Char :=
  if 'a' ≤ c && c ≤ 'z' then Char.ofNat (c.toNat - 32) else c

/-- Python `str.strip()` on a character list (ASCII-whitespace model). -/
def stripList (cs : List Char) : List Char :=
  ((cs.dropWhile isSpaceC).reverse.dropWhile isSpaceC).reverse

/-- Matcher for the head part `[A-Z]{1,2}\d[A-Z\d]?` of the postcode regex
(the part before the optional whitespace), by length of the candidate. -/
def postcodeHead : List Char → Bool
  | [a, d] => isUpperL a && isDigitC d
  | [a, b, d] =>
      (isUpperL a && isUpperL b && isDigitC d) ||
      (isUpperL a && isDigitC b && isAlnumUC d)
  | [a, b, c, d] => isUpperL a && isUpperL b && isDigitC c && isAlnumUC d
  | _ => false

/-- Matcher for the full postcode regex `^[A-Z]{1,2}\d[A-Z\d]?\s*\d[A-Z]{2}$`:
the last three characters are digit-letter-letter, and what remains before
them, with its trailing whitespace removed, matches `postcodeHead`.  The
input is the already upper-cased and stripped character list, so the `$`
anchor coincides with the end of the list. -/
def postcodeMatch (cs : List Char) : Bool :=
  match cs.reverse with
  | l2 :: l1 :: d :: rest =>
      isUpperL l2 && isUpperL l1 && isDigitC d &&
        postcodeHead (rest.dropWhile isSpaceC).reverse
  | _ => false

/-- Embeds `DataValidator.validate_postcode_uk`: upper-case, strip, then
match the UK postcode regex. -/
def validate_postcode_uk (s : String) : Bool :=
  postcodeMatch (stripList (s.data.map pyUpperChar))

/-- Declarative reading of the postcode regex as an explicit decomposition:
one or two upper letters, a digit, an optional alphanumeric, any amount of
whitespace, a digit and two upper letters. -/
def PostcodeSpec (cs : List Char) : Prop :=
  ∃ (p x w : List Char) (d1 d2 l1 l2 : Char),
    cs = p ++ [d1] ++ x ++ w ++ [d2, l1, l2] ∧
    (p.length = 1 ∨ p.length = 2) ∧ (∀ c ∈ p, isUpperL c) ∧
    isDigitC d1 = true ∧
    (x = [] ∨ ∃ xc, x = [xc] ∧ isAlnumUC xc = true) ∧
    (∀ c ∈ w, isSpaceC c) ∧
    isDigitC d2 = true ∧ isUpperL l1 = true ∧ isUpperL l2 = true

/-- Embeds `DataValidator.validate_solicitor_number`: `str()` of the input
(applied by the caller in this model) matched against `^\d{6,7}$`.  With
CPython semantics `$` also matches just before one trailing newline, so a
6-7 digit string followed by a single `'\n'` is accepted as well. -/
def validate_solicitor_number (s : String) : Bool :=
  let ok : List Char → Bool :=
    fun l => (l.length == 6 || l.length == 7) && l.all isDigitC
  ok s.data ||
    (match s.data.getLast? with
     | some c => c == '\n' && ok s.data.dropLast
     | none => false)

/-- The claim-level reading of the registration-number rule: the string
consists of exactly 6 or 7 digits and nothing else. -/
def specSolicitorNumberDigitsOnly (s : String) : Bool :=
  (s.data.length == 6 || s.data.length == 7) && s.data.all isDigitC

/-- A JSON-decoded Python value, as held in the record dictionaries the
validators receive.  A float is carried as its printed representation: the
pipeline only ever stringifies or truth-tests floats, never computes with
them. -/
inductive PyVal where
  | none
  | str (s : String)
  | int (n : Int)
  | float (rep : String)
  | bool (b : Bool)
  | list (xs : List PyVal)
  | dict (kvs : List (String × PyVal))
  deriving Inhabited

/-- Python `repr()` of a value (string escaping inside quotes is not
modelled; no claim inspects the repr of a string containing quotes). -/
def pyRepr : PyVal → String
  | .none => "None"
  | .str s => "\x27" ++ s ++ "\x27"
  | .int n => toString n
  | .float rep => rep
  | .bool b => if b then "True" else "False"
  | .list xs => "[" ++ String.intercalate ", " (xs.attach.map (fun x => pyRepr x.1)) ++ "]"
  | .dict kvs =>
      "\x7b" ++
        String.intercalate ", "
          (kvs.attach.map (fun kv => "\x27" ++ kv.1.1 ++ "\x27: " ++ pyRepr kv.1.2)) ++
      "\x7d"
decreasing_by
  all_goals simp_wf
  · have := List.sizeOf_lt_of_mem x.2
    omega
  · obtain ⟨⟨k, v⟩, hm⟩ := kv
    have := List.sizeOf_lt_of_mem hm
    simp only [Prod.mk.sizeOf_spec] at this
    simp only []
    omega

/-- Python `str()` of a value: like `repr()` except that a string is
returned unquoted. -/
def pyStr : PyVal → String
  | .str s => s
  | v => pyRepr v

/-- Python truthiness of a value. -/
def pyTruthy : PyVal → Bool
  | .none => false
  | .str s => !s.isEmpty
  | .int n => n != 0
  | .float rep => !(rep == "0.0" || rep == "-0.0")
  | .bool b => b
  | .list xs => !xs.isEmpty
  | .dict kvs => !kvs.isEmpty

/-- A record dictionary: insertion-ordered keys, as produced by JSON
decoding.  Python dictionaries have unique keys; lookup takes the first
binding. -/
abbrev Record := List (String × PyVal)

/-- Python `record.get(key)` (`None`, i.e. `Option.none`, when absent). -/
def recGet (record : Record) (key : String) : Option PyVal :=
  (record.find? (fun kv => kv.1 == key)).map (fun kv => kv.2)

/-- Embeds `DataValidator.validate_required_fields`: a required field is
reported `False` when absent, `None`, or a string that is empty after
`strip()`; anything else passes. -/
def validate_required_fields (record : Record) (required_fields : List String) :
    List (String × Bool) :=
  required_fields.map fun f =>
    match recGet record f with
    | Option.none => (f, false)
    | some .none => (f, false)
    | some (.str s) => (f, !(stripList s.data).isEmpty)
    | some _ => (f, true)

/-- The type names `DataValidator.validate_field_types` knows about. -/
def knownFieldTypes : List String :=
  ["string", "integer", "number", "boolean", "list", "dict"]

/-- Python `isinstance` against the validator's type map.  `bool` is a
subclass of `int` in Python, so a boolean passes the `integer` and
`number` checks. -/
def isinstanceB (v : PyVal) (ty : String) : Bool :=
  if ty == "string" then (match v with | .str _ => true | _ => false)
  else if ty == "integer" then (match v with | .int _ => true | .bool _ => true | _ => false)
  else if ty == "number" then
    (match v with | .int _ => true | .float _ => true | .bool _ => true | _ => false)
  else if ty == "boolean" then (match v with | .bool _ => true | _ => false)
  else if ty == "list" then (match v with | .list _ => true | _ => false)
  else if ty == "dict" then (match v with | .dict _ => true | _ => false)
  else false

/-- Embeds `DataValidator.validate_field_types`: a missing field or an
unknown declared type name is reported valid; otherwise the value is
`isinstance`-checked against the declared type. -/
def validate_field_types (record : Record) (field_types : List (String × String)) :
    List (String × Bool) :=
  field_types.map fun ft =>
    match recGet record ft.1 with
    | Option.none => (ft.1, true)
    | some v =>
        if knownFieldTypes.contains ft.2 then (ft.1, isinstanceB v ft.2) else (ft.1, true)

/-- The leaf domain validators `validate_record` dispatches to and that no
claim constrains internally: email and UK-phone regex checks (called on
strings only; on other values the caller raises first), the total
`validate_date` string check, and the total `validate_rating` check.
Every claim is proved for all instantiations, so in particular for the
Python implementations. -/
structure Leaves where
  email : String → Bool
  phone : String → Bool
  date : String → Bool
  rating : PyVal → Bool

/-- Validation rules for one record type, from the external configuration
(`validation.{record_type}.{required_fields, field_types}`). -/
structure ValCfg where
  required_fields : List String
  field_types : List (String × String)

/-- The configured rule sets, keyed by record type.  A present entry
models a non-empty (truthy) rule dictionary. -/
abbrev RulesCfg := List (String × ValCfg)

/-- Lookup of a record type in the configured rules. -/
def lookupRules (rules : RulesCfg) (record_type : String) : Option ValCfg :=
  (rules.find? (fun kv => kv.1 == record_type)).map (fun kv => kv.2)

/-- The body of one truthiness-guarded contact-field check, applied to a
present value: a falsy value is skipped, a truthy string is checked (one
warning on failure), and a truthy non-string reaches the
regex/`.upper()` call and raises. -/
def checkContactVal (v : PyVal) (key : String) (check : String → Bool)
    (warnMsg : String) : Except String (List String) :=
  if pyTruthy v then
    match v with
    | .str s => .ok (if check s then [] else [warnMsg])
    | _ => .error ("TypeError: expected string or bytes-like object in field " ++ key)
  else .ok []

/-- One truthiness-guarded contact-field check, the shape
`if record.get(KEY): if not check(record[KEY]): warnings.append(MSG)`.
A truthy non-string value raises a `TypeError`/`AttributeError`, which
`validate_record` does not catch. -/
def checkContact (record : Record) (key : String) (check : String → Bool)
    (warnMsg : String) : Except String (List String) :=
  match recGet record key with
  | Option.none => .ok []
  | some v => checkContactVal v key check warnMsg

/-- The record-type-specific block of `validate_record`, returning the
errors and warnings it contributes (or the first uncaught exception). -/
def recordSpecificChecks (lv : Leaves) (record : Record) (record_type : String) :
    Except String (List String × List String) :=
  if record_type == "sra_record" then
    .ok (match recGet record "solicitor_number" with
         | some v =>
             if validate_solicitor_number (pyStr v) then []
             else ["Invalid solicitor number format"]
         | Option.none => [], [])
  else if record_type == "sra_organization" then
    let sraErrs := match recGet record "SraNumber" with
      | some v =>
          if validate_solicitor_number (pyStr v) then []
          else ["Invalid SRA organization number format"]
      | Option.none => []
    let offRes : List String × List String := match recGet record "Offices" with
      | Option.none => ([], [])
      | some (.list xs) => ([], if xs.isEmpty then ["Organization has no offices"] else [])
      | some _ => (["Offices field must be a list"], [])
    .ok (sraErrs ++ offRes.1, offRes.2)
  else if record_type == "sra_office" then
    match checkContact record "Postcode" validate_postcode_uk "Invalid postcode format" with
    | .error e => .error e
    | .ok w1 =>
      match checkContact record "Email" lv.email "Invalid email format" with
      | .error e => .error e
      | .ok w2 =>
        match checkContact record "PhoneNumber" lv.phone "Invalid phone number format" with
        | .error e => .error e
        | .ok w3 => .ok ([], w1 ++ w2 ++ w3)
  else if record_type == "review_record" then
    let rErrs := match recGet record "rating" with
      | some v => if lv.rating v then [] else ["Invalid rating value"]
      | Option.none => []
    let dWarns := match recGet record "date" with
      | some v =>
          if (match v with | .str s => lv.date s | _ => false) then []
          else ["Date format may be incorrect"]
      | Option.none => []
    .ok (rErrs, dWarns)
  else .ok ([], [])

/-- The common contact checks at the end of `validate_record` (lowercase
`email`, `phone`, `postcode` keys), contributing warnings only. -/
def commonChecks (lv : Leaves) (record : Record) : Except String (List String) :=
  match checkContact record "email" lv.email "Email format appears invalid" with
  | .error e => .error e
  | .ok w1 =>
    match checkContact record "phone" lv.phone "Phone number format appears invalid" with
    | .error e => .error e
    | .ok w2 =>
      match checkContact record "postcode" validate_postcode_uk "Postcode format appears invalid" with
      | .error e => .error e
      | .ok w3 => .ok (w1 ++ w2 ++ w3)

/-- The result dictionary of `validate_record`.  (On the no-rules early
return the Python dictionary omits the two breakdown keys; here they are
carried as empty lists.) -/
structure ValResult where
  valid : Bool
  errors : List String
  warnings : List String
  required_fields_valid : List (String × Bool)
  field_types_valid : List (String × Bool)

/-- The required-field error strings contributed by one configuration. -/
def reqErrsOf (record : Record) (cfg : ValCfg) : List String :=
  (validate_required_fields record cfg.required_fields).filterMap
    (fun fb => if fb.2 then Option.none else some ("Missing or empty required field: " ++ fb.1))

/-- The field-type error strings contributed by one configuration. -/
def tyErrsOf (record : Record) (cfg : ValCfg) : List String :=
  (validate_field_types record cfg.field_types).filterMap
    (fun fb => if fb.2 then Option.none else some ("Invalid type for field: " ++ fb.1))

/-- The body of `validate_record` once a rule set for the record type has
been found: required-field errors, then type errors, then the
record-type-specific block, then the common contact warnings; the record
is valid exactly when the error list is empty. -/
def validateRecordCfg (lv : Leaves) (cfg : ValCfg) (record : Record)
    (record_type : String) : Except String ValResult :=
  match recordSpecificChecks lv record record_type with
  | .error e => .error e
  | .ok specRes =>
    match commonChecks lv record with
    | .error e => .error e
    | .ok commonWarns =>
      let errors := reqErrsOf record cfg ++ tyErrsOf record cfg ++ specRes.1
      let warnings := specRes.2 ++ commonWarns
      .ok ⟨errors.isEmpty, errors, warnings,
        validate_required_fields record cfg.required_fields,
        validate_field_types record cfg.field_types⟩

/-- Embeds `DataValidator.validate_record`: with no configured rules for
the record type the record is trivially valid; otherwise the configured
checks run.  An uncaught `TypeError`/`AttributeError` from a domain check
propagates as `Except.error`. -/
def validate_record (lv : Leaves) (rules : RulesCfg) (record : Record)
    (record_type : String) : Except String ValResult :=
  match lookupRules rules record_type with
  | Option.none => .ok ⟨true, [], [], [], []⟩
  | some cfg => validateRecordCfg lv cfg record record_type

/-- The summary dictionary returned by `validate_dataset`. -/
structure DatasetSummary where
  total_records : Nat
  valid_records : Nat
  invalid_records : Nat
  validation_rate : ℚ
  errors : List String
  warnings : List String
  error_count : Nat
  warning_count : Nat

/-- The enumeration loop of `validate_dataset`: per-record validation with
`Record {i+1}: ` prefixes, accumulating (valid, invalid, errors,
warnings).  The first uncaught exception aborts the whole call. -/
def datasetScan (lv : Leaves) (rules : RulesCfg) (record_type : String) :
    Nat → List Record → Except String (Nat × Nat × List String × List String)
  | _, [] => .ok (0, 0, [], [])
  | i, r :: rest =>
    match validate_record lv rules r record_type with
    | .error e => .error e
    | .ok res =>
      match datasetScan lv rules record_type (i + 1) rest with
      | .error e => .error e
      | .ok tail =>
        let pre := "Record " ++ toString (i + 1) ++ ": "
        .ok ((if res.valid then 1 else 0) + tail.1,
             (if res.valid then 0 else 1) + tail.2.1,
             (if res.valid then [] else res.errors.map (fun e => pre ++ e)) ++ tail.2.2.1,
             res.warnings.map (fun w => pre ++ w) ++ tail.2.2.2)

/-- Embeds `DataValidator.validate_dataset`: aggregate the per-record
results; the validation rate divides only when the input is non-empty. -/
def validate_dataset (lv : Leaves) (rules : RulesCfg) (data : List Record)
    (record_type : String) : Except String DatasetSummary :=
  match datasetScan lv rules record_type 0 data with
  | .error e => .error e
  | .ok scan =>
    .ok { total_records := data.length
          valid_records := scan.1
          invalid_records := scan.2.1
          validation_rate :=
            if data.isEmpty then 0 else (scan.1 : ℚ) / (data.length : ℚ) * 100
          errors := scan.2.2.1
          warnings := scan.2.2.2
          error_count := scan.2.2.1.length
          warning_count := scan.2.2.2.length }

/-- A record is contact-safe when every truthiness-guarded contact field
(`Postcode`, `Email`, `PhoneNumber` for office records; lowercase `email`,
`phone`, `postcode` for every record) holds a string whenever it is
present and truthy, so no domain check can raise. -/
def contactFieldSafe (record : Record) (key : String) : Bool :=
  match recGet record key with
  | Option.none => true
  | some v => !pyTruthy v || (match v with | .str _ => true | _ => false)

/-- Contact-safety over all six truthiness-guarded fields. -/
def SafeRecord (record : Record) : Bool :=
  contactFieldSafe record "Postcode" && contactFieldSafe record "Email" &&
  contactFieldSafe record "PhoneNumber" && contactFieldSafe record "email" &&
  contactFieldSafe record "phone" && contactFieldSafe record "postcode"

/-! ## The canonical organization/office tree

The shape produced by the SRA API and consumed by the collector and the
output generator.  Scalar fields that the pipeline only copies or
truth-tests are `Option String` (`Option.none` models an absent key, which
`dict.get` turns into Python `None`); `NoOfOffices`, `DataQualityScore`
and `FreelanceBasis` may be non-string JSON values and are carried as
`Option PyVal`. -/

/-- One office record of the canonical tree. -/
structure Office where
  OfficeId : Option String
  Name : Option String
  OfficeType : Option String
  Address1 : Option String
  Address2 : Option String
  Address3 : Option String
  Address4 : Option String
  Town : Option String
  County : Option String
  Postcode : Option String
  Country : Option String
  PhoneNumber : Option String
  Email : Option String
  Website : Option String
  deriving DecidableEq

/-- One organization record of the canonical tree. -/
structure Org where
  Id : Option String
  SraNumber : Option String
  PracticeName : Option String
  OrganisationType : Option String
  AuthorisationType : Option String
  AuthorisationStatus : Option String
  AuthorisationDate : Option String
  FreelanceBasis : Option PyVal
  Regulator : Option String
  Constitution : Option String
  «Type» : Option String
  NoOfOffices : Option PyVal
  DataQualityScore : Option PyVal
  DataQualityCategory : Option String
  Offices : List Office

/-- Python truthiness of an optional string field. -/
def strTruthy : Option String → Bool
  | Option.none => false
  | some s => !s.isEmpty

/-- An optional string rendered as a JSON value (`null` when absent). -/
def optStr : Option String → PyVal
  | Option.none => .none
  | some s => .str s

/-! ## Output generator (`generate_outputs.py`) -/

/-- One compact-format office, from
`OutputGenerator.generate_compact_json`: a six-key address block where
absent (or, for `line2`/`county`, falsy) source fields become `null`, and
a `contact` sub-object that is dropped entirely when no phone, email or
website survives the truthiness guards. -/
def compactOffice (o : Office) : PyVal :=
  let addr : PyVal := .dict
    [("line1", optStr o.Address1),
     ("line2", if strTruthy o.Address2 then optStr o.Address2 else .none),
     ("town", optStr o.Town),
     ("county", if strTruthy o.County then optStr o.County else .none),
     ("postcode", optStr o.Postcode),
     ("country", optStr o.Country)]
  let contact : List (String × PyVal) :=
    (if strTruthy o.PhoneNumber then [("phone", optStr o.PhoneNumber)] else []) ++
    (if strTruthy o.Email then [("email", optStr o.Email)] else []) ++
    (if strTruthy o.Website then [("website", optStr o.Website)] else [])
  .dict
    ([("id", optStr o.OfficeId),
      ("name", optStr o.Name),
      ("type", optStr o.OfficeType),
      ("address", addr)] ++
     (if contact.isEmpty then [] else [("contact", .dict contact)]))

/-- One compact-format organization: the fixed keys, the two conditional
optional keys, and the compacted offices. -/
def compactOrg (o : Org) : PyVal :=
  .dict
    ([("id", optStr o.Id),
      ("sra_number", optStr o.SraNumber),
      ("name", optStr o.PracticeName),
      ("type", optStr o.OrganisationType),
      ("quality_score", o.DataQualityScore.getD (.int 0)),
      ("quality_category", .str (o.DataQualityCategory.getD "Unknown")),
      ("offices", .list (o.Offices.map compactOffice))] ++
     (if strTruthy o.AuthorisationType then [("authorization_type", optStr o.AuthorisationType)] else []) ++
     (if strTruthy o.Regulator then [("regulator", optStr o.Regulator)] else []))

/-- Embeds `OutputGenerator.generate_compact_json` (the constructed
object; file writing is outside the model).  `now` is the generation
timestamp. -/
def generate_compact_json (now : String) (orgs : List Org) : PyVal :=
  .dict
    [("version", .str "1.0"),
     ("generated", .str now),
     ("count", .int orgs.length),
     ("organizations", .list (orgs.map compactOrg))]

/-- Key lookup in a JSON object value. -/
def dictGet (v : PyVal) (key : String) : Option PyVal :=
  match v with
  | .dict kvs => recGet kvs key
  | _ => Option.none

/-- One database-ready organization record, from
`OutputGenerator.generate_database_ready_format`.  The
`authorization_date`/`freelance_basis` keys exist only when the source
field is truthy; that key-presence is collapsed into `Option`. -/
structure DbOrg where
  id : Option String
  sra_number : Option String
  practice_name : Option String
  organization_type : Option String
  authorization_type : Option String
  authorization_status : Option String
  regulator : Option String
  constitution : Option String
  «type» : Option String
  number_of_offices : Option PyVal
  data_quality_score : Option PyVal
  data_quality_category : Option String
  created_at : String
  updated_at : String
  authorization_date : Option String
  freelance_basis : Option PyVal

/-- One database-ready office record, carrying the owning organization's
`Id` as the `organization_id` join key. -/
structure DbOffice where
  id : Option String
  organization_id : Option String
  name : Option String
  office_type : Option String
  address_line_1 : Option String
  address_line_2 : Option String
  address_line_3 : Option String
  address_line_4 : Option String
  town : Option String
  county : Option String
  postcode : Option String
  country : Option String
  phone_number : Option String
  email : Option String
  website : Option String
  created_at : String
  updated_at : String

/-- The database organization record built for one source organization. -/
def dbOrgOf (now : String) (o : Org) : DbOrg :=
  { id := o.Id
    sra_number := o.SraNumber
    practice_name := o.PracticeName
    organization_type := o.OrganisationType
    authorization_type := o.AuthorisationType
    authorization_status := o.AuthorisationStatus
    regulator := o.Regulator
    constitution := o.Constitution
    «type» := o.«Type»
    number_of_offices := o.NoOfOffices
    data_quality_score := o.DataQualityScore
    data_quality_category := o.DataQualityCategory
    created_at := now
    updated_at := now
    authorization_date := if strTruthy o.AuthorisationDate then o.AuthorisationDate else Option.none
    freelance_basis :=
      match o.FreelanceBasis with
      | some v => if pyTruthy v then some v else Option.none
      | Option.none => Option.none }

/-- The database office record built for one office of organization `o`. -/
def dbOfficeOf (now : String) (o : Org) (f : Office) : DbOffice :=
  { id := f.OfficeId
    organization_id := o.Id
    name := f.Name
    office_type := f.OfficeType
    address_line_1 := f.Address1
    address_line_2 := f.Address2
    address_line_3 := f.Address3
    address_line_4 := f.Address4
    town := f.Town
    county := f.County
    postcode := f.Postcode
    country := f.Country
    phone_number := f.PhoneNumber
    email := f.Email
    website := f.Website
    created_at := now
    updated_at := now }

/-- Embeds `OutputGenerator.generate_database_ready_format`: one pass over
the organizations, appending each organization record and then, from that
organization's own office list, its office records. -/
def generate_database_ready_format (now : String) : List Org → List DbOrg × List DbOffice
  | [] => ([], [])
  | o :: rest =>
      let tail := generate_database_ready_format now rest
      (dbOrgOf now o :: tail.1, o.Offices.map (dbOfficeOf now o) ++ tail.2)

/-! ## Collector (`src/collectors/sra_collector.py`)

`SRACollector._validate_organization` and `_validate_office` wrap
`DataValidator.validate_record` in a `try/except` that turns any exception
into `(False, [message])`, so at this boundary validation is a total
function; the collector is therefore parameterized over the two total
validity functions. -/

/-- The fields of `SRACollector.collection_stats` mutated during a run
(timestamps and byte sizes, which no claim constrains, are omitted). -/
structure Stats where
  total_organizations : Nat
  organizations_processed : Nat
  total_offices : Nat
  offices_processed : Nat
  errors : Nat
  validation_errors : Nat
  api_calls : Nat

/-- The all-zero counters a collector starts a run with. -/
def Stats.init : Stats := ⟨0, 0, 0, 0, 0, 0, 0⟩

/-- One entry of the metadata validation-errors list. -/
structure VErr where
  organization_id : Option String
  office_id : Option (Option String)
  vtype : String
  errs : List String

/-- The `validation_summary` block of the processed-data metadata. -/
structure ValSummary where
  valid_organizations : Nat
  invalid_organizations : Nat
  valid_offices : Nat
  invalid_offices : Nat
  validation_errors : List VErr

/-- The metadata block of `_process_organization_data` (collection date
omitted). -/
structure PMeta where
  total_organizations : Nat
  total_offices : Nat
  validation_summary : ValSummary

/-- The processed dataset: metadata plus the emitted organizations. -/
structure ProcessedData where
  metadata : PMeta
  organizations : List Org

/-- The inner office loop of `_process_organization_data`: each office is
validated; a valid office is kept (in order) and counted, an invalid one
is dropped, counted under `invalid_offices` and recorded in the
validation-errors list. -/
def officesScan (validOffice : Office → Bool × List String) (orgId : Option String) :
    List Office → PMeta → Stats → List Office × PMeta × Stats
  | [], m, s => ([], m, s)
  | f :: rest, m, s =>
      let r := validOffice f
      if r.1 then
        let m1 := { m with validation_summary :=
          { m.validation_summary with
              valid_offices := m.validation_summary.valid_offices + 1 } }
        let s1 := { s with offices_processed := s.offices_processed + 1 }
        let tail := officesScan validOffice orgId rest m1 s1
        (f :: tail.1, tail.2)
      else
        let m1 := { m with validation_summary :=
          { m.validation_summary with
              invalid_offices := m.validation_summary.invalid_offices + 1
              validation_errors := m.validation_summary.validation_errors ++
                [⟨orgId, some f.OfficeId, "office", r.2⟩] } }
        let s1 := { s with validation_errors := s.validation_errors + 1 }
        officesScan validOffice orgId rest m1 s1

/-- The per-organization body of `_process_organization_data`: validate
the organization (kept either way, flagged when invalid), then — when the
office list is non-empty — count and filter its offices and replace the
organization's office list with the validated subset. -/
def processOrg (validOrg : Org → Bool × List String)
    (validOffice : Office → Bool × List String) (o : Org) (m : PMeta) (s : Stats) :
    Org × PMeta × Stats :=
  let r := validOrg o
  let m1 :=
    if r.1 then
      { m with validation_summary :=
        { m.validation_summary with
            valid_organizations := m.validation_summary.valid_organizations + 1 } }
    else
      { m with validation_summary :=
        { m.validation_summary with
            invalid_organizations := m.validation_summary.invalid_organizations + 1
            validation_errors := m.validation_summary.validation_errors ++
              [⟨o.Id, Option.none, "organization", r.2⟩] } }
  let s1 := if r.1 then s else { s with validation_errors := s.validation_errors + 1 }
  let step :=
    if o.Offices.isEmpty then (o, m1, s1)
    else
      let m2 := { m1 with total_offices := m1.total_offices + o.Offices.length }
      let s2 := { s1 with total_offices := s1.total_offices + o.Offices.length }
      let scanned := officesScan validOffice o.Id o.Offices m2 s2
      ({ o with Offices := scanned.1 }, scanned.2)
  (step.1, step.2.1,
   { step.2.2 with organizations_processed := step.2.2.organizations_processed + 1 })

/-- The organization loop of `_process_organization_data`. -/
def podGo (validOrg : Org → Bool × List String)
    (validOffice : Office → Bool × List String) :
    List Org → PMeta → Stats → List Org × PMeta × Stats
  | [], m, s => ([], m, s)
  | o :: rest, m, s =>
      let step := processOrg validOrg validOffice o m s
      let tail := podGo validOrg validOffice rest step.2.1 step.2.2
      (step.1 :: tail.1, tail.2)

/-- Embeds `SRACollector._process_organization_data`, threading the
collector's running stats. -/
def processOrganizationData (validOrg : Org → Bool × List String)
    (validOffice : Office → Bool × List String) (orgs : List Org) (s : Stats) :
    ProcessedData × Stats :=
  let m0 : PMeta := ⟨orgs.length, 0, ⟨0, 0, 0, 0, []⟩⟩
  let r := podGo validOrg validOffice orgs m0 s
  (⟨r.2.1, r.1⟩, r.2.2)

/-- The environment one `collect_organizations` run observes through its
collaborators: the connection-test outcome, the decoded fetch result
(`Count` and the `Organisations` list, or the message of the exception the
fetch raised), and the persistence outcome. -/
structure CollectEnv where
  conn_ok : Bool
  fetch : Except String (Nat × List Org)
  save : Except String Unit

/-- The result dictionary of `collect_organizations` (duration and file
paths, which no claim constrains, are omitted). -/
structure CollectResult where
  success : Bool
  error : Option String
  organizations_collected : Nat
  offices_collected : Nat
  collection_stats : Stats

/-- Embeds `SRACollector.collect_organizations`: connection test, fetch,
empty-result check, processing, persistence; every raised exception is
caught by the outer handler, which returns a failure dictionary carrying
the error message and the counters accumulated so far. -/
def collect_organizations (validOrg : Org → Bool × List String)
    (validOffice : Office → Bool × List String) (env : CollectEnv) : CollectResult :=
  let s0 := Stats.init
  if !env.conn_ok then
    { success := false, error := some "Failed to establish connection to SRA API"
      organizations_collected := s0.organizations_processed
      offices_collected := s0.offices_processed, collection_stats := s0 }
  else
    let s1 := { s0 with api_calls := s0.api_calls + 1 }
    match env.fetch with
    | .error e =>
        { success := false, error := some e
          organizations_collected := s1.organizations_processed
          offices_collected := s1.offices_processed, collection_stats := s1 }
    | .ok (count, organizations) =>
        let s2 := { s1 with total_organizations := count }
        if organizations.isEmpty then
          { success := false, error := some "No organizations data received from API"
            organizations_collected := s2.organizations_processed
            offices_collected := s2.offices_processed, collection_stats := s2 }
        else
          let processed := processOrganizationData validOrg validOffice organizations s2
          let s3 := processed.2
          match env.save with
          | .error e =>
              { success := false, error := some e
                organizations_collected := s3.organizations_processed
                offices_collected := s3.offices_processed, collection_stats := s3 }
          | .ok _ =>
              { success := true, error := Option.none
                organizations_collected := s3.organizations_processed
                offices_collected := s3.offices_processed, collection_stats := s3 }

/-! ## API client (`src/collectors/sra_api_client.py`) -/

/-- What one physical request attempt can observe: an HTTP response
(status, optional `Retry-After` header, parsed JSON body) or a
network-level `RequestException`. -/
inductive AttemptOutcome where
  | resp (status : Nat) (retryAfter : Option Nat) (body : PyVal)
  | netError (msg : String)

/-- The client configuration fields relevant to `_make_request`. -/
structure ClientCfg where
  max_retries : Nat
  retry_delay : Nat

/-- The exceptions the client can propagate: a non-retryable
`ValueError` on 401/403, a `RequestException` re-raised once retries are
exhausted, the final `Exception` after the attempt loop runs out, and
the Python `AttributeError`/`TypeError` that the logging reads of
`get_all_organizations` raise on an unexpectedly shaped 200 body.  None
of these is an `SRAAPIError`. -/
inductive ApiFailure where
  | valueError (msg : String)
  | requestFailed (msg : String)
  | maxRetriesExceeded
  | attributeError (msg : String)
  | typeError (msg : String)
  deriving DecidableEq

/-- The Python type name of a value, as it appears in
`AttributeError`/`TypeError` messages. -/
def pyTypeName : PyVal → String
  | .none => "NoneType"
  | .str _ => "str"
  | .int _ => "int"
  | .float _ => "float"
  | .bool _ => "bool"
  | .list _ => "list"
  | .dict _ => "dict"

/-- Python `len()` succeeds exactly on the sized values of this value
model (str, list, dict); on the others it raises `TypeError`. -/
def pySized : PyVal → Bool
  | .str _ => true
  | .list _ => true
  | .dict _ => true
  | _ => false

/-- Whether a value is a Python dictionary. -/
def pyIsDict : PyVal → Bool
  | .dict _ => true
  | _ => false

/-- The attempt loop of `SRAAPIClient._make_request`: `i` is the attempt
index, `rem` the attempts left out of `max_retries + 1`.  200 returns the
parsed body; 429 sleeps and takes the next attempt; 401/403 raise
immediately; any other status ≥ 400 is `raise_for_status`, whose
`HTTPError` is caught as a `RequestException` and retried until the
budget is spent; a non-200 status below 400 falls through the handler
chain and simply loops.  (Sleep durations are not modelled; no claim
constrains the client's timing.) -/
def makeRequestAux (cfg : ClientCfg) (attempts : Nat → AttemptOutcome) :
    Nat → Nat → Except ApiFailure PyVal
  | _, 0 => .error .maxRetriesExceeded
  | i, rem + 1 =>
      match attempts i with
      | .resp status _ body =>
          if status == 200 then .ok body
          else if status == 429 then makeRequestAux cfg attempts (i + 1) rem
          else if status == 401 then
            .error (.valueError "Invalid API key or authentication failed")
          else if status == 403 then
            .error (.valueError "Access forbidden - check API key permissions")
          else if status ≥ 400 then
            if i == cfg.max_retries then .error (.requestFailed ("HTTP " ++ toString status))
            else makeRequestAux cfg attempts (i + 1) rem
          else makeRequestAux cfg attempts (i + 1) rem
      | .netError msg =>
          if i == cfg.max_retries then .error (.requestFailed msg)
          else makeRequestAux cfg attempts (i + 1) rem

/-- Embeds `SRAAPIClient._make_request` for one endpoint call. -/
def make_request (cfg : ClientCfg) (attempts : Nat → AttemptOutcome) :
    Except ApiFailure PyVal :=
  makeRequestAux cfg attempts 0 (cfg.max_retries + 1)

/-- Embeds `SRAAPIClient.get_all_organizations`: one `_make_request`
against the organizations endpoint.  Before the body is returned, the
logging reads at sra_api_client.py:170-171 run: `data.get('Count', 0)`
raises `AttributeError` when the 200 body is not a dictionary, and
`len(data.get('Organisations', []))` raises `TypeError` when the
`Organisations` value is present but not sized; the `except` clause
logs and re-raises both.  A dictionary body that survives those reads —
whatever fields it has or lacks — is returned unchanged: the function
performs no presence validation and raises no `APIError`. -/
def get_all_organizations (cfg : ClientCfg) (attempts : Nat → AttemptOutcome) :
    Except ApiFailure PyVal :=
  match make_request cfg attempts with
  | .error e => .error e
  | .ok data =>
      match data with
      | .dict kvs =>
          let orgsVal := (recGet kvs "Organisations").getD (.list [])
          if pySized orgsVal then .ok (.dict kvs)
          else .error (.typeError
            ("object of type \x27" ++ pyTypeName orgsVal ++ "\x27 has no len()"))
      | other => .error (.attributeError
          ("\x27" ++ pyTypeName other ++ "\x27 object has no attribute \x27get\x27"))

/-- Embeds `SRAAPIClient.test_connection`: a real fetch whose result must
be a dictionary containing both `Count` and `Organisations`; every
failure, including a raised exception, becomes `false`. -/
def test_connection (cfg : ClientCfg) (attempts : Nat → AttemptOutcome) : Bool :=
  match get_all_organizations cfg attempts with
  | .error _ => false
  | .ok body =>
      match body with
      | .dict kvs => (recGet kvs "Count").isSome && (recGet kvs "Organisations").isSome
      | _ => false

/-! ## Rate limiter (`RateLimiter` in `src/collectors/sra_api_client.py`)

Real time is `ℚ` seconds.  A call happens at time `now`; the only way
time advances inside a call is sleeping, so the second `time.time()` read
(the recorded timestamp) is `now` plus the two sleeps. -/

/-- The rate limiter's configuration and timestamp state. -/
structure RateLimiter where
  requests_per_period : Nat
  period_seconds : ℚ
  delay_between_requests : ℚ
  request_timestamps : List ℚ

/-- The `RateLimiter` constructor: the period is given in minutes. -/
def RateLimiter.mk0 (requests_per_period : Nat) (period_minutes : ℚ)
    (delay_between_requests : ℚ) : RateLimiter :=
  ⟨requests_per_period, period_minutes * 60, delay_between_requests, []⟩

/-- Embeds `RateLimiter.wait_if_needed` at time `now`: returns the new
state, the rate-window sleep and the minimum-gap sleep.  Old timestamps
are discarded first; with the window full the call sleeps until the
oldest surviving timestamp leaves the window plus a 1-second margin; the
minimum-gap check reuses the stale `now`; finally `time.time()` is read
again and appended.  (With `requests_per_period = 0` and no surviving
timestamps the Python code would raise `IndexError` on `[0]`; the model
returns a zero sleep there, and every claim about the full-window branch
assumes `requests_per_period ≥ 1`.) -/
def wait_if_needed (rl : RateLimiter) (now : ℚ) : RateLimiter × ℚ × ℚ :=
  let cutoff := now - rl.period_seconds
  let ts := rl.request_timestamps.filter (fun t => decide (cutoff < t))
  let sleep1 :=
    if rl.requests_per_period ≤ ts.length then
      match ts with
      | t0 :: _ =>
          let s := rl.period_seconds - (now - t0) + 1
          if 0 < s then s else 0
      | [] => 0
    else 0
  let sleep2 :=
    match ts.getLast? with
    | some tl => if now - tl < rl.delay_between_requests then rl.delay_between_requests - (now - tl) else 0
    | Option.none => 0
  ({ rl with request_timestamps := ts ++ [now + sleep1 + sleep2] }, sleep1, sleep2)

/-- Two-level key lookup in a JSON object value. -/
def dictGet2 (v : PyVal) (key1 key2 : String) : Option PyVal :=
  match dictGet v key1 with
  | some w => dictGet w key2
  | Option.none => Option.none

/-- A concrete office with only an identifier, used to instantiate
proved claims. -/
def offFix : Office :=
  ⟨some "OF1", Option.none, Option.none, Option.none, Option.none, Option.none,
   Option.none, Option.none, Option.none, Option.none, Option.none, Option.none,
   Option.none, Option.none⟩

/-- A concrete organization owning `offFix`, used to instantiate proved
claims. -/
def orgFix : Org :=
  ⟨some "ORG1", some "123456", some "Firm", Option.none, Option.none, Option.none,
   Option.none, Option.none, Option.none, Option.none, Option.none, Option.none,
   Option.none, Option.none, [offFix]⟩

/-- The rate limiter `mk0 5 1 0` after five immediate calls at time 0:
five timestamps at 0 fill the 60-second window (proved as part of the
rate-limiter claim theorem). -/
def rlAfter5 : RateLimiter := ⟨5, 60, 0, [0, 0, 0, 0, 0]⟩

/-- Declarative reading of what `^\d{6,7}$` accepts under CPython `$`
semantics: 6 or 7 digits, optionally followed by one trailing newline. -/
def SolNumberSpecAmended (s : String) : Prop :=
  ∃ ds : List Char, (s.data = ds ∨ s.data = ds ++ ['\n']) ∧
    (ds.length = 6 ∨ ds.length = 7) ∧ ∀ c ∈ ds, isDigitC c

/-! ## Helper lemmas -/

/-- A character of the class `[A-Z\d]` is never whitespace. -/
theorem alnum_not_space {c : Char} (h : isAlnumUC c = true) : isSpaceC c = false := by
  have ne : ∀ d : Char, isAlnumUC d = false → (c == d) = false := by
    intro d hd
    rcases eq_or_ne c d with rfl | hne
    · rw [h] at hd; cases hd
    · exact beq_eq_false_iff_ne.mpr hne
  unfold isSpaceC
  rw [ne ' ' (by decide), ne '\t' (by decide), ne '\n' (by decide), ne '\r' (by decide),
    ne '\x0b' (by decide), ne '\x0c' (by decide)]
  rfl

/-- A digit is never whitespace. -/
theorem digit_not_space {c : Char} (h : isDigitC c = true) : isSpaceC c = false :=
  alnum_not_space (by simp [isAlnumUC, h])

/-- The head part of the postcode matcher agrees with the declarative
decomposition into one or two letters, a digit and an optional
alphanumeric. -/
theorem postcodeHead_iff (l : List Char) : postcodeHead l = true ↔
    ∃ (p x : List Char) (d1 : Char),
      l = p ++ [d1] ++ x ∧ (p.length = 1 ∨ p.length = 2) ∧ (∀ c ∈ p, isUpperL c) ∧
      isDigitC d1 = true ∧ (x = [] ∨ ∃ xc, x = [xc] ∧ isAlnumUC xc = true) := by
  constructor
  · intro h
    match l with
    | [a, d] =>
        simp only [postcodeHead, Bool.and_eq_true] at h
        exact ⟨[a], [], d, by simp, Or.inl rfl, by simp [h.1], h.2, Or.inl rfl⟩
    | [a, b, d] =>
        simp only [postcodeHead, Bool.or_eq_true, Bool.and_eq_true] at h
        rcases h with ⟨⟨ha, hb⟩, hd⟩ | ⟨⟨ha, hb⟩, hd⟩
        · exact ⟨[a, b], [], d, by simp, Or.inr rfl, by simp [ha, hb], hd, Or.inl rfl⟩
        · exact ⟨[a], [d], b, by simp, Or.inl rfl, by simp [ha], hb, Or.inr ⟨d, rfl, hd⟩⟩
    | [a, b, c, d] =>
        simp only [postcodeHead, Bool.and_eq_true] at h
        exact ⟨[a, b], [d], c, by simp, Or.inr rfl, by simp [h.1.1.1, h.1.1.2],
          h.1.2, Or.inr ⟨d, rfl, h.2⟩⟩
    | [] => simp [postcodeHead] at h
    | [_] => simp [postcodeHead] at h
    | _ :: _ :: _ :: _ :: _ :: _ => simp [postcodeHead] at h
  · rintro ⟨p, x, d1, rfl, hp, hup, hd1, hx⟩
    rcases hp with hp | hp
    · obtain ⟨a, rfl⟩ := List.length_eq_one.mp hp
      rcases hx with rfl | ⟨xc, rfl, hxc⟩
      · simpa [postcodeHead] using ⟨hup a (by simp), hd1⟩
      · simp [postcodeHead, hup a (by simp), hd1, hxc]
    · obtain ⟨a, b, rfl⟩ := List.length_eq_two.mp hp
      rcases hx with rfl | ⟨xc, rfl, hxc⟩
      · simp [postcodeHead, hup a (by simp), hup b (by simp), hd1]
      · simp [postcodeHead, hup a (by simp), hup b (by simp), hd1, hxc]

/-- The postcode matcher agrees with the declarative reading of the
regex on every character list. -/
theorem postcodeMatch_iff (cs : List Char) :
    postcodeMatch cs = true ↔ PostcodeSpec cs := by
  constructor
  · intro h
    unfold postcodeMatch at h
    match hrev : cs.reverse with
    | [] => rw [hrev] at h; simp at h
    | [l2] => rw [hrev] at h; simp at h
    | [l2, l1] => rw [hrev] at h; simp at h
    | l2 :: l1 :: d :: rest =>
        rw [hrev] at h
        simp only [Bool.and_eq_true] at h
        obtain ⟨⟨⟨h2, h1⟩, hd⟩, hh⟩ := h
        obtain ⟨p, x, d1, hsplit, hp, hup, hd1, hx⟩ := (postcodeHead_iff _).mp hh
        have hcs : cs = rest.reverse ++ [d, l1, l2] := by
          have := congrArg List.reverse hrev
          simpa using this
        have hrest : rest = rest.takeWhile isSpaceC ++ rest.dropWhile isSpaceC :=
          (List.takeWhile_append_dropWhile isSpaceC rest).symm
        refine ⟨p, x, (rest.takeWhile isSpaceC).reverse, d1, d, l1, l2, ?_, hp, hup, hd1, hx,
          ?_, hd, h1, h2⟩
        · have hdw : rest.dropWhile isSpaceC = (p ++ [d1] ++ x).reverse := by
            have := congrArg List.reverse hsplit
            simpa using this
          rw [hcs]
          conv_lhs => rw [hrest]
          rw [hdw]
          simp
        · intro c hc
          rw [List.mem_reverse] at hc
          exact List.mem_takeWhile_imp hc
  · rintro ⟨p, x, w, d1, d2, l1, l2, rfl, hp, hup, hd1, hx, hw, hd2, h1, h2⟩
    unfold postcodeMatch
    have hrev : (p ++ [d1] ++ x ++ w ++ [d2, l1, l2]).reverse =
        l2 :: l1 :: d2 :: (w.reverse ++ (x.reverse ++ d1 :: p.reverse)) := by
      simp
    rw [hrev]
    show (isUpperL l2 && isUpperL l1 && isDigitC d2 &&
      postcodeHead ((w.reverse ++ (x.reverse ++ d1 :: p.reverse)).dropWhile isSpaceC).reverse)
        = true
    have hwrev : ∀ c ∈ w.reverse, isSpaceC c = true := by
      intro c hc
      exact hw c (List.mem_reverse.mp hc)
    have hdrop2 : (x.reverse ++ d1 :: p.reverse).dropWhile isSpaceC =
        x.reverse ++ d1 :: p.reverse := by
      rcases hx with rfl | ⟨xc, rfl, hxc⟩
      · simp only [List.reverse_nil, List.nil_append]
        exact List.dropWhile_cons_of_neg (by simp [digit_not_space hd1])
      · simp only [List.reverse_cons, List.reverse_nil, List.nil_append, List.cons_append]
        exact List.dropWhile_cons_of_neg (by simp [alnum_not_space hxc])
    have hdrop : (w.reverse ++ (x.reverse ++ d1 :: p.reverse)).dropWhile isSpaceC =
        x.reverse ++ d1 :: p.reverse := by
      rw [List.dropWhile_append_of_pos hwrev, hdrop2]
    rw [hdrop]
    have hhead : (x.reverse ++ d1 :: p.reverse).reverse = p ++ [d1] ++ x := by simp
    rw [hhead]
    simp only [Bool.and_eq_true]
    exact ⟨⟨⟨h2, h1⟩, hd2⟩, (postcodeHead_iff _).mpr ⟨p, x, d1, rfl, hp, hup, hd1, hx⟩⟩

/-- The solicitor-number matcher agrees with the declarative reading of
`^\d{6,7}$` under CPython `$` semantics. -/
theorem validate_solicitor_number_iff (s : String) :
    validate_solicitor_number s = true ↔ SolNumberSpecAmended s := by
  unfold validate_solicitor_number SolNumberSpecAmended
  constructor
  · intro h
    rcases Bool.or_eq_true_iff.mp h with h | h
    · simp only [Bool.and_eq_true, Bool.or_eq_true_iff, beq_iff_eq, List.all_eq_true] at h
      exact ⟨s.data, Or.inl rfl, h.1, h.2⟩
    · match hgl : s.data.getLast? with
      | Option.none => rw [hgl] at h; cases h
      | some c =>
          rw [hgl] at h
          simp only [Bool.and_eq_true, beq_iff_eq] at h
          obtain ⟨rfl, h2⟩ := h
          obtain ⟨ys, hys⟩ := List.getLast?_eq_some_iff.mp hgl
          rw [hys, List.dropLast_concat] at h2
          simp only [Bool.and_eq_true, Bool.or_eq_true_iff, beq_iff_eq, List.all_eq_true] at h2
          exact ⟨ys, Or.inr hys, h2.1, h2.2⟩
  · rintro ⟨ds, hds, hlen, hdig⟩
    rcases hds with hds | hds
    · apply Bool.or_eq_true_iff.mpr
      left
      rw [hds]
      simp only [Bool.and_eq_true, Bool.or_eq_true_iff, beq_iff_eq, List.all_eq_true]
      exact ⟨hlen, hdig⟩
    · apply Bool.or_eq_true_iff.mpr
      right
      rw [hds, List.getLast?_concat, List.dropLast_concat]
      simp only [Bool.and_eq_true, beq_iff_eq, Bool.or_eq_true_iff, List.all_eq_true, beq_self_eq_true]
      exact ⟨trivial, hlen, hdig⟩

/-- A present contact value that is a string whenever truthy yields at
most its own warning and never raises. -/
theorem checkContactVal_ok {v : PyVal} (key : String) (chk : String → Bool)
    (msg : String) (h : pyTruthy v = true → ∃ s, v = .str s) :
    checkContactVal v key chk msg = .ok [] ∨
      checkContactVal v key chk msg = .ok [msg] := by
  unfold checkContactVal
  match ht : pyTruthy v with
  | false => left; simp [ht]
  | true =>
      obtain ⟨s, rfl⟩ := h ht
      match hc : chk s with
      | true => left; simp [ht, hc]
      | false => right; simp [ht, hc]

/-- A contact-safe field's truthiness-guarded check cannot raise, and can
contribute at most its own warning message. -/
theorem checkContact_ok {record : Record} {key : String} (chk : String → Bool)
    (msg : String) (h : contactFieldSafe record key = true) :
    ∃ w, checkContact record key chk msg = .ok w ∧ w ⊆ [msg] := by
  unfold checkContact
  match hg : recGet record key with
  | Option.none => exact ⟨[], rfl, by simp⟩
  | some v =>
      have hsafe : pyTruthy v = true → ∃ s, v = .str s := by
        intro ht
        simp only [contactFieldSafe, hg, ht, Bool.not_true, Bool.false_or] at h
        match v with
        | .str s => exact ⟨s, rfl⟩
        | .none => cases h
        | .int _ => cases h
        | .float _ => cases h
        | .bool _ => cases h
        | .list _ => cases h
        | .dict _ => cases h
      rcases checkContactVal_ok key chk msg hsafe with hq | hq
      · exact ⟨[], hq, by simp⟩
      · exact ⟨[msg], hq, by simp⟩

/-- The common contact checks reduce pointwise once each sub-check is
known to succeed. -/
theorem commonChecks_eq {lv : Leaves} {record : Record} {w1 w2 w3 : List String}
    (hE : checkContact record "email" lv.email "Email format appears invalid" = .ok w1)
    (hP : checkContact record "phone" lv.phone "Phone number format appears invalid" = .ok w2)
    (hC : checkContact record "postcode" validate_postcode_uk "Postcode format appears invalid" = .ok w3) :
    commonChecks lv record = .ok (w1 ++ w2 ++ w3) := by
  unfold commonChecks
  rw [hE, hP, hC]

/-- The office-record contact checks reduce pointwise once each sub-check
is known to succeed. -/
theorem officeChecks_eq {lv : Leaves} {record : Record} {w1 w2 w3 : List String}
    (hPc : checkContact record "Postcode" validate_postcode_uk "Invalid postcode format" = .ok w1)
    (hE : checkContact record "Email" lv.email "Invalid email format" = .ok w2)
    (hPh : checkContact record "PhoneNumber" lv.phone "Invalid phone number format" = .ok w3) :
    recordSpecificChecks lv record "sra_office" = .ok ([], w1 ++ w2 ++ w3) := by
  unfold recordSpecificChecks
  rw [hPc, hE, hPh]
  simp

/-- On a contact-safe record the record-specific block never raises. -/
theorem recordSpecificChecks_ok (lv : Leaves) {record : Record} (rt : String)
    (h1 : contactFieldSafe record "Postcode" = true)
    (h2 : contactFieldSafe record "Email" = true)
    (h3 : contactFieldSafe record "PhoneNumber" = true) :
    ∃ r, recordSpecificChecks lv record rt = .ok r := by
  obtain ⟨u1, e1, _⟩ := checkContact_ok validate_postcode_uk "Invalid postcode format" h1
  obtain ⟨u2, e2, _⟩ := checkContact_ok lv.email "Invalid email format" h2
  obtain ⟨u3, e3, _⟩ := checkContact_ok lv.phone "Invalid phone number format" h3
  unfold recordSpecificChecks
  split
  · exact ⟨_, rfl⟩
  split
  · exact ⟨_, rfl⟩
  split
  · rw [e1, e2, e3]; exact ⟨_, rfl⟩
  split
  · exact ⟨_, rfl⟩
  · exact ⟨_, rfl⟩

/-- The configured-rules body of `validate_record` reduces pointwise once
its two sub-check blocks are known to succeed. -/
theorem validateRecordCfg_eq {lv : Leaves} (cfg : ValCfg) {record : Record}
    {rt : String} {spec : List String × List String} {cw : List String}
    (h1 : recordSpecificChecks lv record rt = .ok spec)
    (h2 : commonChecks lv record = .ok cw) :
    validateRecordCfg lv cfg record rt = .ok
      ⟨(reqErrsOf record cfg ++ tyErrsOf record cfg ++ spec.1).isEmpty,
       reqErrsOf record cfg ++ tyErrsOf record cfg ++ spec.1,
       spec.2 ++ cw,
       validate_required_fields record cfg.required_fields,
       validate_field_types record cfg.field_types⟩ := by
  unfold validateRecordCfg
  rw [h1, h2]

/-- On a contact-safe record `validate_record` never raises. -/
theorem validate_record_ok (lv : Leaves) (rules : RulesCfg) {record : Record}
    (rt : String) (h : SafeRecord record = true) :
    ∃ res, validate_record lv rules record rt = .ok res := by
  unfold SafeRecord at h
  simp only [Bool.and_eq_true] at h
  obtain ⟨⟨⟨⟨⟨hPc, hE⟩, hPh⟩, he⟩, hp⟩, hpc⟩ := h
  unfold validate_record
  match hlr : lookupRules rules rt with
  | Option.none => exact ⟨_, rfl⟩
  | some cfg =>
      obtain ⟨spec, hspec⟩ := recordSpecificChecks_ok lv rt hPc hE hPh
      obtain ⟨v1, c1, _⟩ := checkContact_ok lv.email "Email format appears invalid" he
      obtain ⟨v2, c2, _⟩ := checkContact_ok lv.phone "Phone number format appears invalid" hp
      obtain ⟨v3, c3, _⟩ := checkContact_ok validate_postcode_uk "Postcode format appears invalid" hpc
      exact ⟨_, validateRecordCfg_eq cfg hspec (commonChecks_eq c1 c2 c3)⟩

/-- On all-contact-safe data the dataset scan succeeds and its valid and
invalid counts partition the input. -/
theorem datasetScan_ok {lv : Leaves} {rules : RulesCfg} {rt : String} :
    ∀ (data : List Record), (∀ r ∈ data, SafeRecord r = true) → ∀ i,
    ∃ t, datasetScan lv rules rt i data = .ok t ∧ t.1 + t.2.1 = data.length := by
  intro data
  induction data with
  | nil => exact fun _ _ => ⟨(0, 0, [], []), rfl, rfl⟩
  | cons r rest ih =>
      intro h i
      obtain ⟨res, hres⟩ := validate_record_ok lv rules rt (h r (by simp))
      obtain ⟨t, ht, hc⟩ := ih (fun x hx => h x (by simp [hx])) (i + 1)
      refine ⟨((if res.valid then 1 else 0) + t.1,
               (if res.valid then 0 else 1) + t.2.1,
               (if res.valid then []
                else res.errors.map (fun e => "Record " ++ toString (i + 1) ++ ": " ++ e)) ++ t.2.2.1,
               res.warnings.map (fun w => "Record " ++ toString (i + 1) ++ ": " ++ w) ++ t.2.2.2),
        ?_, ?_⟩
      · unfold datasetScan
        rw [hres, ht]
      · simp only [List.length_cons]
        cases res.valid <;> simp <;> omega

/-- The specific block for an `sra_organization` record with a string
`SraNumber` failing the registration-number check: the error is emitted
first, and the block can warn only about an empty office list. -/
theorem recordSpecific_sra_org (lv : Leaves) {record : Record} {s : String}
    (hsn : recGet record "SraNumber" = some (.str s))
    (hbad : validate_solicitor_number s = false) :
    ∃ offErrs offWarns, recordSpecificChecks lv record "sra_organization" =
      .ok ("Invalid SRA organization number format" :: offErrs, offWarns) ∧
      (∀ w ∈ offWarns, w = "Organization has no offices") := by
  match hoff : recGet record "Offices" with
  | Option.none =>
      refine ⟨[], [], ?_, by simp⟩
      unfold recordSpecificChecks
      simp [hsn, hoff, pyStr, hbad]
  | some (.list xs) =>
      refine ⟨[], if xs.isEmpty then ["Organization has no offices"] else [], ?_, ?_⟩
      · unfold recordSpecificChecks
        simp [hsn, hoff, pyStr, hbad]
      · intro w hw
        rcases hxs : xs.isEmpty <;> rw [hxs] at hw <;> simp_all
  | some (.str v) =>
      refine ⟨["Offices field must be a list"], [], ?_, by simp⟩
      unfold recordSpecificChecks
      simp [hsn, hoff, pyStr, hbad]
  | some (.int v) =>
      refine ⟨["Offices field must be a list"], [], ?_, by simp⟩
      unfold recordSpecificChecks
      simp [hsn, hoff, pyStr, hbad]
  | some (.float v) =>
      refine ⟨["Offices field must be a list"], [], ?_, by simp⟩
      unfold recordSpecificChecks
      simp [hsn, hoff, pyStr, hbad]
  | some (.bool v) =>
      refine ⟨["Offices field must be a list"], [], ?_, by simp⟩
      unfold recordSpecificChecks
      simp [hsn, hoff, pyStr, hbad]
  | some (.dict v) =>
      refine ⟨["Offices field must be a list"], [], ?_, by simp⟩
      unfold recordSpecificChecks
      simp [hsn, hoff, pyStr, hbad]
  | some .none =>
      refine ⟨["Offices field must be a list"], [], ?_, by simp⟩
      unfold recordSpecificChecks
      simp [hsn, hoff, pyStr, hbad]

/-! ## Claim theorems -/

/-- C5: `validate_postcode_uk` accepts exactly the strings that, after
uppercasing and trimming, decompose as one or two letters, one digit, an
optional alphanumeric, optional whitespace, one digit and two letters; in
particular it accepts "SW1A 1AA", "M1 1AA" and "B33 8TH" and rejects
"INVALID" and "12345". -/
theorem C5_validate_postcode_uk_spec :
    (∀ s : String, validate_postcode_uk s = true ↔
      PostcodeSpec (stripList (s.data.map pyUpperChar))) ∧
    validate_postcode_uk "SW1A 1AA" = true ∧ validate_postcode_uk "M1 1AA" = true ∧
    validate_postcode_uk "B33 8TH" = true ∧ validate_postcode_uk "INVALID" = false ∧
    validate_postcode_uk "12345" = false :=
  ⟨fun _ => postcodeMatch_iff _, by decide, by decide, by decide, by decide, by decide⟩

/-- Witness for C5: the equivalence instantiated at "SW1A 1AA". -/
theorem C5_witness :
    PostcodeSpec (stripList ("SW1A 1AA".data.map pyUpperChar)) :=
  (C5_validate_postcode_uk_spec.1 "SW1A 1AA").mp (by decide)

/-- C6 counterexample: under CPython `$` semantics the regex
`^\d{6,7}$` also accepts six digits followed by one trailing newline, a
string that does not consist of digits only, so the claimed
characterization "exactly 6 or 7 digits and nothing else" is false. -/
theorem C6_counterexample :
    validate_solicitor_number "123456\n" = true ∧
    specSolicitorNumberDigitsOnly "123456\n" = false :=
  ⟨by decide, by decide⟩

/-- C6 (amended): `validate_solicitor_number` accepts exactly the strings
that are 6 or 7 digits optionally followed by a single trailing newline;
the five listed example strings behave as the claim states; and an
`sra_organization` record with a configured rule set whose string
`SraNumber` fails the check receives the validation error
"Invalid SRA organization number format" — an error, never a warning —
from `validate_record`. -/
theorem C6_solicitor_number_amended :
    (∀ s : String, validate_solicitor_number s = true ↔ SolNumberSpecAmended s) ∧
    validate_solicitor_number "123456" = true ∧
    validate_solicitor_number "1234567" = true ∧
    validate_solicitor_number "12345" = false ∧
    validate_solicitor_number "12345678" = false ∧
    validate_solicitor_number "abc123" = false ∧
    (∀ (lv : Leaves) (rules : RulesCfg) (cfg : ValCfg) (record : Record) (s : String),
      lookupRules rules "sra_organization" = some cfg →
      recGet record "SraNumber" = some (.str s) →
      validate_solicitor_number s = false →
      SafeRecord record = true →
      ∃ res, validate_record lv rules record "sra_organization" = .ok res ∧
        res.valid = false ∧
        "Invalid SRA organization number format" ∈ res.errors ∧
        "Invalid SRA organization number format" ∉ res.warnings) := by
  refine ⟨validate_solicitor_number_iff, by decide, by decide, by decide, by decide, by decide, ?_⟩
  intro lv rules cfg record s hlr hsn hbad hsafe
  unfold SafeRecord at hsafe
  simp only [Bool.and_eq_true] at hsafe
  obtain ⟨⟨⟨⟨⟨hPc, hE⟩, hPh⟩, he⟩, hp⟩, hpc⟩ := hsafe
  obtain ⟨offErrs, offWarns, hspec, how⟩ := recordSpecific_sra_org lv hsn hbad
  obtain ⟨w1, c1, s1⟩ := checkContact_ok lv.email "Email format appears invalid" he
  obtain ⟨w2, c2, s2⟩ := checkContact_ok lv.phone "Phone number format appears invalid" hp
  obtain ⟨w3, c3, s3⟩ := checkContact_ok validate_postcode_uk "Postcode format appears invalid" hpc
  have hcfg := validateRecordCfg_eq cfg hspec (commonChecks_eq c1 c2 c3)
  refine ⟨⟨(reqErrsOf record cfg ++ tyErrsOf record cfg ++
        ("Invalid SRA organization number format" :: offErrs)).isEmpty,
      reqErrsOf record cfg ++ tyErrsOf record cfg ++
        ("Invalid SRA organization number format" :: offErrs),
      offWarns ++ (w1 ++ w2 ++ w3),
      validate_required_fields record cfg.required_fields,
      validate_field_types record cfg.field_types⟩, ?_, ?_, ?_, ?_⟩
  · unfold validate_record
    rw [hlr]
    exact hcfg
  · simp
  · simp
  · intro hmem
    simp only [List.mem_append] at hmem
    rcases hmem with hmem | ((hmem | hmem) | hmem)
    · exact absurd (how _ hmem) (by decide)
    · have hx := s1 hmem
      simp only [List.mem_singleton] at hx
      exact absurd hx (by decide)
    · have hx := s2 hmem
      simp only [List.mem_singleton] at hx
      exact absurd hx (by decide)
    · have hx := s3 hmem
      simp only [List.mem_singleton] at hx
      exact absurd hx (by decide)

/-- Witness for C6: the amended theorem applied to a concrete
organization record with `SraNumber` "12". -/
theorem C6_witness :
    ∃ res, validate_record ⟨fun _ => false, fun _ => false, fun _ => false, fun _ => false⟩
        [("sra_organization", ⟨[], []⟩)] [("SraNumber", PyVal.str "12")]
        "sra_organization" = .ok res ∧
      res.valid = false ∧
      "Invalid SRA organization number format" ∈ res.errors ∧
      "Invalid SRA organization number format" ∉ res.warnings :=
  C6_solicitor_number_amended.2.2.2.2.2.2 _ _ ⟨[], []⟩ _ "12" rfl rfl (by decide) (by decide)

/-- C10 counterexample: `validate_dataset` is not total — an
`sra_office` record whose truthy `Postcode` value is not a string makes
the postcode domain check raise, and the exception propagates out of
`validate_dataset`. -/
theorem C10_counterexample :
    validate_dataset ⟨fun _ => false, fun _ => false, fun _ => false, fun _ => false⟩
      [("sra_office", ⟨[], []⟩)] [[("Postcode", PyVal.int 1)]] "sra_office" =
      .error "TypeError: expected string or bytes-like object in field Postcode" := by
  rfl

/-- C10 (amended): on every input list whose records are contact-safe
(each truthiness-guarded contact field holds a string whenever present
and truthy), `validate_dataset` returns without error, with
`valid_records + invalid_records = total_records = length`, and a
validation rate of `valid / total * 100` for non-empty input and `0` for
empty input (the division is guarded). -/
theorem C10_validate_dataset_amended (lv : Leaves) (rules : RulesCfg) (rt : String)
    (data : List Record) (h : ∀ r ∈ data, SafeRecord r = true) :
    ∃ s, validate_dataset lv rules data rt = .ok s ∧
      s.valid_records + s.invalid_records = s.total_records ∧
      s.total_records = data.length ∧
      (data = [] → s.validation_rate = 0) ∧
      (data ≠ [] → s.validation_rate = (s.valid_records : ℚ) / (data.length : ℚ) * 100) := by
  obtain ⟨t, ht, hc⟩ := datasetScan_ok data h 0
  unfold validate_dataset
  rw [ht]
  refine ⟨_, rfl, hc, rfl, ?_, ?_⟩
  · intro hd
    subst hd
    rfl
  · intro hd
    have hne : data.isEmpty = false := by
      cases data
      · exact absurd rfl hd
      · rfl
    simp [hne]

/-- Witness for C10: the amended theorem applied to a one-record
contact-safe dataset. -/
theorem C10_witness :
    ∃ s, validate_dataset ⟨fun _ => false, fun _ => false, fun _ => false, fun _ => false⟩
        [] [[("name", PyVal.str "ok")]] "sra_record" = .ok s ∧
      s.valid_records + s.invalid_records = s.total_records ∧
      s.total_records = [[("name", PyVal.str "ok")]].length ∧
      (([[("name", PyVal.str "ok")]] : List Record) = [] → s.validation_rate = 0) ∧
      (([[("name", PyVal.str "ok")]] : List Record) ≠ [] →
        s.validation_rate =
          (s.valid_records : ℚ) / (([[("name", PyVal.str "ok")]] : List Record).length : ℚ) * 100) :=
  C10_validate_dataset_amended _ _ _ _ (by decide)

/-- C9: type checking never penalizes absence — a field of the declared
rules that is absent from the record, or whose declared type name is
unknown, is always reported valid, and a reported type failure can only
come from a present field with a known declared type whose value fails
the `isinstance` check. -/
theorem C9_validate_field_types_absence (record : Record)
    (field_types : List (String × String)) :
    (∀ f ty, (f, ty) ∈ field_types →
      (recGet record f = Option.none ∨ knownFieldTypes.contains ty = false) →
      (f, true) ∈ validate_field_types record field_types) ∧
    (∀ f, (f, false) ∈ validate_field_types record field_types →
      ∃ v ty, (f, ty) ∈ field_types ∧ recGet record f = some v ∧
        knownFieldTypes.contains ty = true ∧ isinstanceB v ty = false) := by
  constructor
  · intro f ty hmem hcond
    have hval : (match recGet record f with
        | Option.none => (f, true)
        | some v =>
            if knownFieldTypes.contains ty then (f, isinstanceB v ty) else (f, true)) =
        (f, true) := by
      rcases hcond with hc | hc
      · rw [hc]
      · match hg : recGet record f with
        | Option.none => rfl
        | some v => rw [hc]; rfl
    unfold validate_field_types
    exact List.mem_map.mpr ⟨(f, ty), hmem, hval⟩
  · intro f hmem
    unfold validate_field_types at hmem
    obtain ⟨⟨f0, ty0⟩, hmem0, heq⟩ := List.mem_map.mp hmem
    match hg : recGet record f0 with
    | Option.none =>
        simp only [hg] at heq
        simp only [Prod.mk.injEq] at heq
        cases heq.2
    | some v =>
        simp only [hg] at heq
        by_cases hk : knownFieldTypes.contains ty0 = true
        · rw [if_pos hk] at heq
          simp only [Prod.mk.injEq] at heq
          obtain ⟨rfl, hv⟩ := heq
          exact ⟨v, ty0, hmem0, hg, hk, hv⟩
        · rw [if_neg hk] at heq
          simp only [Prod.mk.injEq] at heq
          cases heq.2

/-- Witness for C9: the theorem applied to a record lacking the declared
field `a` and declaring an unknown type name for `b`. -/
theorem C9_witness :
    (("a", true) ∈ validate_field_types [("b", PyVal.int 3)]
        [("a", "string"), ("b", "mystery")]) ∧
    (("b", true) ∈ validate_field_types [("b", PyVal.int 3)]
        [("a", "string"), ("b", "mystery")]) :=
  ⟨(C9_validate_field_types_absence [("b", PyVal.int 3)]
      [("a", "string"), ("b", "mystery")]).1 "a" "string" (by simp) (Or.inl (by rfl)),
   (C9_validate_field_types_absence [("b", PyVal.int 3)]
      [("a", "string"), ("b", "mystery")]).1 "b" "mystery" (by simp) (Or.inr (by rfl))⟩

/-- The kept and dropped offices of one list partition its length. -/
theorem filter_pos_neg_length (p : Office → Bool) (l : List Office) :
    (l.filter p).length + (l.filter (fun x => !(p x))).length = l.length := by
  induction l with
  | nil => rfl
  | cons a t ih =>
      cases hp : p a <;> simp [List.filter_cons, hp] <;> omega

/-- The office scan keeps exactly the valid offices, in order. -/
theorem officesScan_list (vF : Office → Bool × List String) (orgId : Option String) :
    ∀ (offs : List Office) (m : PMeta) (s : Stats),
    (officesScan vF orgId offs m s).1 = offs.filter (fun f => (vF f).1) := by
  intro offs
  induction offs with
  | nil => intro m s; rfl
  | cons f rest ih =>
      intro m s
      cases hv : (vF f).1 <;> simp [officesScan, hv, List.filter_cons, ih]

/-- The office scan never touches the organization total. -/
theorem officesScan_totalOrgs (vF : Office → Bool × List String) (orgId : Option String) :
    ∀ (offs : List Office) (m : PMeta) (s : Stats),
    (officesScan vF orgId offs m s).2.1.total_organizations = m.total_organizations := by
  intro offs
  induction offs with
  | nil => intro m s; rfl
  | cons f rest ih =>
      intro m s
      cases hv : (vF f).1 <;> simp [officesScan, hv, ih]

/-- The office scan never touches the office total. -/
theorem officesScan_totalOffices (vF : Office → Bool × List String) (orgId : Option String) :
    ∀ (offs : List Office) (m : PMeta) (s : Stats),
    (officesScan vF orgId offs m s).2.1.total_offices = m.total_offices := by
  intro offs
  induction offs with
  | nil => intro m s; rfl
  | cons f rest ih =>
      intro m s
      cases hv : (vF f).1 <;> simp [officesScan, hv, ih]

/-- The office scan adds the kept count to the valid-office counter. -/
theorem officesScan_validOff (vF : Office → Bool × List String) (orgId : Option String) :
    ∀ (offs : List Office) (m : PMeta) (s : Stats),
    (officesScan vF orgId offs m s).2.1.validation_summary.valid_offices =
      m.validation_summary.valid_offices + (offs.filter (fun f => (vF f).1)).length := by
  intro offs
  induction offs with
  | nil => intro m s; rfl
  | cons f rest ih =>
      intro m s
      cases hv : (vF f).1 <;> simp [officesScan, hv, List.filter_cons, ih] <;> omega

/-- The office scan adds the dropped count to the invalid-office
counter. -/
theorem officesScan_invalidOff (vF : Office → Bool × List String) (orgId : Option String) :
    ∀ (offs : List Office) (m : PMeta) (s : Stats),
    (officesScan vF orgId offs m s).2.1.validation_summary.invalid_offices =
      m.validation_summary.invalid_offices +
        (offs.filter (fun f => !((vF f).1))).length := by
  intro offs
  induction offs with
  | nil => intro m s; rfl
  | cons f rest ih =>
      intro m s
      cases hv : (vF f).1 <;> simp [officesScan, hv, List.filter_cons, ih] <;> omega

/-- Replacing an empty office list by the empty list is the identity. -/
theorem org_offices_eta (o : Org) (h : o.Offices = []) :
    { o with Offices := ([] : List Office) } = o := by
  cases o
  simp_all

/-- One processing step emits the input organization with its office
list filtered to the valid subset. -/
theorem processOrg_org (vO : Org → Bool × List String)
    (vF : Office → Bool × List String) (o : Org) (m : PMeta) (s : Stats) :
    (processOrg vO vF o m s).1 =
      { o with Offices := o.Offices.filter (fun f => (vF f).1) } := by
  unfold processOrg
  match hoe : o.Offices with
  | [] =>
      simp only [hoe, List.isEmpty_nil, if_pos, List.filter_nil]
      exact (org_offices_eta o hoe).symm
  | f :: rest =>
      simp [hoe, officesScan_list]

/-- One processing step never touches the organization total. -/
theorem processOrg_totalOrgs (vO : Org → Bool × List String)
    (vF : Office → Bool × List String) (o : Org) (m : PMeta) (s : Stats) :
    (processOrg vO vF o m s).2.1.total_organizations = m.total_organizations := by
  unfold processOrg
  match hoe : o.Offices with
  | [] => cases hv : (vO o).1 <;> simp [hoe, hv]
  | f :: rest =>
      cases hv : (vO o).1 <;> simp [hoe, hv, officesScan_totalOrgs]

/-- One processing step adds the organization's office-list length to the
office total. -/
theorem processOrg_totalOffices (vO : Org → Bool × List String)
    (vF : Office → Bool × List String) (o : Org) (m : PMeta) (s : Stats) :
    (processOrg vO vF o m s).2.1.total_offices = m.total_offices + o.Offices.length := by
  unfold processOrg
  match hoe : o.Offices with
  | [] => cases hv : (vO o).1 <;> simp [hoe, hv]
  | f :: rest =>
      cases hv : (vO o).1 <;> simp [hoe, hv, officesScan_totalOffices]

/-- One processing step adds the kept-office count to the valid-office
counter. -/
theorem processOrg_validOff (vO : Org → Bool × List String)
    (vF : Office → Bool × List String) (o : Org) (m : PMeta) (s : Stats) :
    (processOrg vO vF o m s).2.1.validation_summary.valid_offices =
      m.validation_summary.valid_offices +
        (o.Offices.filter (fun f => (vF f).1)).length := by
  unfold processOrg
  match hoe : o.Offices with
  | [] => cases hv : (vO o).1 <;> simp [hoe, hv]
  | f :: rest =>
      cases hv : (vO o).1 <;> simp [hoe, hv, officesScan_validOff]

/-- One processing step adds the dropped-office count to the
invalid-office counter. -/
theorem processOrg_invalidOff (vO : Org → Bool × List String)
    (vF : Office → Bool × List String) (o : Org) (m : PMeta) (s : Stats) :
    (processOrg vO vF o m s).2.1.validation_summary.invalid_offices =
      m.validation_summary.invalid_offices +
        (o.Offices.filter (fun f => !((vF f).1))).length := by
  unfold processOrg
  match hoe : o.Offices with
  | [] => cases hv : (vO o).1 <;> simp [hoe, hv]
  | f :: rest =>
      cases hv : (vO o).1 <;> simp [hoe, hv, officesScan_invalidOff]

/-- The organization loop emits every input organization, in order, with
its office list filtered to the valid subset. -/
theorem podGo_orgs (vO : Org → Bool × List String)
    (vF : Office → Bool × List String) :
    ∀ (orgs : List Org) (m : PMeta) (s : Stats),
    (podGo vO vF orgs m s).1 =
      orgs.map (fun o => { o with Offices := o.Offices.filter (fun f => (vF f).1) }) := by
  intro orgs
  induction orgs with
  | nil => intro m s; rfl
  | cons o rest ih =>
      intro m s
      simp [podGo, processOrg_org, ih]

/-- The organization loop never touches the organization total. -/
theorem podGo_totalOrgs (vO : Org → Bool × List String)
    (vF : Office → Bool × List String) :
    ∀ (orgs : List Org) (m : PMeta) (s : Stats),
    (podGo vO vF orgs m s).2.1.total_organizations = m.total_organizations := by
  intro orgs
  induction orgs with
  | nil => intro m s; rfl
  | cons o rest ih =>
      intro m s
      simp [podGo, ih, processOrg_totalOrgs]

/-- Through the organization loop, the growth of the valid and invalid
office counters matches the growth of the office total. -/
theorem podGo_offices_invariant (vO : Org → Bool × List String)
    (vF : Office → Bool × List String) :
    ∀ (orgs : List Org) (m : PMeta) (s : Stats),
    (podGo vO vF orgs m s).2.1.validation_summary.valid_offices +
      (podGo vO vF orgs m s).2.1.validation_summary.invalid_offices +
      m.total_offices =
    (podGo vO vF orgs m s).2.1.total_offices +
      m.validation_summary.valid_offices + m.validation_summary.invalid_offices := by
  intro orgs
  induction orgs with
  | nil =>
      intro m s
      simp only [podGo]
      omega
  | cons o rest ih =>
      intro m s
      have ho2 := processOrg_totalOffices vO vF o m s
      have ho3 := processOrg_validOff vO vF o m s
      have ho4 := processOrg_invalidOff vO vF o m s
      have hpart := filter_pos_neg_length (fun f => (vF f).1) o.Offices
      have hih := ih (processOrg vO vF o m s).2.1 (processOrg vO vF o m s).2.2
      simp only [podGo]
      omega

/-- C2: collector validation asymmetry — `_process_organization_data`
emits every input organization in order (failing organizations
included), with exactly the offices that pass validation retained in
order and the failing ones dropped, and its metadata satisfies
`valid_offices + invalid_offices = total_offices` (and records the input
length as `total_organizations`). -/
theorem C2_process_organization_data_asymmetry
    (validOrg : Org → Bool × List String) (validOffice : Office → Bool × List String)
    (orgs : List Org) (s : Stats) :
    (processOrganizationData validOrg validOffice orgs s).1.organizations =
      orgs.map (fun o => { o with Offices := o.Offices.filter (fun f => (validOffice f).1) }) ∧
    (processOrganizationData validOrg validOffice orgs s).1.metadata.validation_summary.valid_offices +
      (processOrganizationData validOrg validOffice orgs s).1.metadata.validation_summary.invalid_offices =
      (processOrganizationData validOrg validOffice orgs s).1.metadata.total_offices ∧
    (processOrganizationData validOrg validOffice orgs s).1.metadata.total_organizations =
      orgs.length := by
  refine ⟨?_, ?_, ?_⟩
  · exact podGo_orgs validOrg validOffice orgs _ s
  · have := podGo_offices_invariant validOrg validOffice orgs
      ⟨orgs.length, 0, ⟨0, 0, 0, 0, []⟩⟩ s
    simpa [processOrganizationData] using this
  · exact podGo_totalOrgs validOrg validOffice orgs _ s

/-- C1: referential integrity of the relational-load output — for every
input dataset, every office record produced by
`generate_database_ready_format` carries an `organization_id` that is the
`id` of some produced organization record; zero orphaned offices. -/
theorem C1_db_referential_integrity (now : String) (orgs : List Org) :
    ∀ off ∈ (generate_database_ready_format now orgs).2,
      off.organization_id ∈
        (generate_database_ready_format now orgs).1.map (fun d => d.id) := by
  induction orgs with
  | nil =>
      intro off h
      simp [generate_database_ready_format] at h
  | cons o rest ih =>
      intro off h
      simp only [generate_database_ready_format, List.mem_append] at h
      rcases h with h | h
      · obtain ⟨f, hf, rfl⟩ := List.mem_map.mp h
        simp [generate_database_ready_format, dbOfficeOf, dbOrgOf]
      · have hmem := ih off h
        simp only [generate_database_ready_format, List.map_cons, List.mem_cons]
        right
        exact hmem

/-- Witness for C1: the integrity theorem applied to a one-organization
dataset. -/
theorem C1_witness :
    (dbOfficeOf "t" orgFix offFix).organization_id ∈
      (generate_database_ready_format "t" [orgFix]).1.map (fun d => d.id) :=
  C1_db_referential_integrity "t" [orgFix] (dbOfficeOf "t" orgFix offFix)
    (by simp [generate_database_ready_format, orgFix])

/-- C4: compact JSON format — the `count` field equals the length of the
`organizations` array; each emitted office's address block carries all
six keys, rendering absent source fields as `null` rather than omitting
the key; and the `contact` sub-object is present exactly when the office
has a truthy phone, email, or website. -/
theorem C4_compact_json_format (now : String) (orgs : List Org) :
    dictGet (generate_compact_json now orgs) "count" = some (.int orgs.length) ∧
    dictGet (generate_compact_json now orgs) "organizations" =
      some (.list (orgs.map compactOrg)) ∧
    (∀ o : Org, dictGet (compactOrg o) "offices" =
      some (.list (o.Offices.map compactOffice))) ∧
    (∀ f : Office,
      ((dictGet2 (compactOffice f) "address" "line1").isSome = true ∧
       (dictGet2 (compactOffice f) "address" "line2").isSome = true ∧
       (dictGet2 (compactOffice f) "address" "town").isSome = true ∧
       (dictGet2 (compactOffice f) "address" "county").isSome = true ∧
       (dictGet2 (compactOffice f) "address" "postcode").isSome = true ∧
       (dictGet2 (compactOffice f) "address" "country").isSome = true) ∧
      (f.Address1 = Option.none →
        dictGet2 (compactOffice f) "address" "line1" = some PyVal.none) ∧
      (f.Address2 = Option.none →
        dictGet2 (compactOffice f) "address" "line2" = some PyVal.none) ∧
      (f.Town = Option.none →
        dictGet2 (compactOffice f) "address" "town" = some PyVal.none) ∧
      (f.County = Option.none →
        dictGet2 (compactOffice f) "address" "county" = some PyVal.none) ∧
      (f.Postcode = Option.none →
        dictGet2 (compactOffice f) "address" "postcode" = some PyVal.none) ∧
      (f.Country = Option.none →
        dictGet2 (compactOffice f) "address" "country" = some PyVal.none) ∧
      ((dictGet (compactOffice f) "contact").isSome = true ↔
        (strTruthy f.PhoneNumber = true ∨ strTruthy f.Email = true ∨
         strTruthy f.Website = true))) := by
  refine ⟨rfl, rfl, fun o => rfl, fun f => ⟨⟨rfl, rfl, rfl, rfl, rfl, rfl⟩,
    ?_, ?_, ?_, ?_, ?_, ?_, ?_⟩⟩
  · intro h
    simp [compactOffice, dictGet2, dictGet, recGet, h, optStr]
  · intro h
    simp [compactOffice, dictGet2, dictGet, recGet, h, strTruthy]
  · intro h
    simp [compactOffice, dictGet2, dictGet, recGet, h, optStr]
  · intro h
    simp [compactOffice, dictGet2, dictGet, recGet, h, strTruthy]
  · intro h
    simp [compactOffice, dictGet2, dictGet, recGet, h, optStr]
  · intro h
    simp [compactOffice, dictGet2, dictGet, recGet, h, optStr]
  · cases hP : strTruthy f.PhoneNumber <;> cases hE : strTruthy f.Email <;>
      cases hW : strTruthy f.Website <;>
      simp [compactOffice, dictGet, recGet, hP, hE, hW]

/-- Witness for C4: the format theorem applied to the fixture office,
whose optional address fields are absent. -/
theorem C4_witness :
    dictGet2 (compactOffice offFix) "address" "county" = some PyVal.none :=
  (((C4_compact_json_format "t" []).2.2.2 offFix).2.2.2.2.1) (by rfl)

/-- C7: collector failure is explicit — `collect_organizations` returns
(never raises) a result whose `success` flag is false exactly when an
error message is carried; an empty fetched organizations list is a fatal
error with the fixed message; and the reported collected counts are
always the accumulated processed counters. -/
theorem C7_collect_failure_result (validOrg : Org → Bool × List String)
    (validOffice : Office → Bool × List String) (env : CollectEnv) :
    ((collect_organizations validOrg validOffice env).success = false ↔
      (collect_organizations validOrg validOffice env).error.isSome = true) ∧
    (∀ count : Nat, env.conn_ok = true → env.fetch = .ok (count, []) →
      (collect_organizations validOrg validOffice env).success = false ∧
      (collect_organizations validOrg validOffice env).error =
        some "No organizations data received from API") ∧
    (collect_organizations validOrg validOffice env).organizations_collected =
      (collect_organizations validOrg validOffice env).collection_stats.organizations_processed ∧
    (collect_organizations validOrg validOffice env).offices_collected =
      (collect_organizations validOrg validOffice env).collection_stats.offices_processed := by
  have hempty : ∀ count : Nat, env.conn_ok = true → env.fetch = .ok (count, []) →
      (collect_organizations validOrg validOffice env).success = false ∧
      (collect_organizations validOrg validOffice env).error =
        some "No organizations data received from API" := by
    intro count hcc hff
    unfold collect_organizations
    rw [hcc, hff]
    exact ⟨rfl, rfl⟩
  refine ⟨?_, hempty, ?_, ?_⟩ <;>
  · unfold collect_organizations
    cases hc : env.conn_ok
    · simp
    · match hf : env.fetch with
      | .error e => simp
      | .ok (count, orgs) =>
          match orgs with
          | [] => simp
          | o :: os =>
              match hs : env.save with
              | .error e => simp
              | .ok u => simp

/-- Witness for C7: an empty fetch against a working connection fails
with the fixed message. -/
theorem C7_witness :
    (collect_organizations (fun _ => (true, [])) (fun _ => (true, []))
      ⟨true, .ok (7, []), .ok ()⟩).success = false ∧
    (collect_organizations (fun _ => (true, [])) (fun _ => (true, []))
      ⟨true, .ok (7, []), .ok ()⟩).error =
      some "No organizations data received from API" :=
  (C7_collect_failure_result (fun _ => (true, [])) (fun _ => (true, []))
    ⟨true, .ok (7, []), .ok ()⟩).2.1 7 rfl rfl

/-- C8: rate limiter — each call first discards the recorded timestamps
at or beyond the window (keeping exactly those newer than
`now - period_seconds`) and appends the post-sleep current time on every
exit path; with the window full it sleeps until the oldest surviving
timestamp has exited the window plus the 1-second margin; and in the
concrete 5-per-60-seconds scenario the 6th of 6 immediate calls blocks
(sleeps 61 seconds) until after the oldest timestamp exits the window. -/
theorem C8_rate_limiter_window (rl : RateLimiter) (now : ℚ) :
    ((wait_if_needed rl now).1.request_timestamps =
      rl.request_timestamps.filter (fun t => decide (now - rl.period_seconds < t)) ++
        [now + (wait_if_needed rl now).2.1 + (wait_if_needed rl now).2.2]) ∧
    (1 ≤ rl.requests_per_period →
      rl.requests_per_period ≤
        (rl.request_timestamps.filter
          (fun t => decide (now - rl.period_seconds < t))).length →
      ∃ t0, (rl.request_timestamps.filter
          (fun t => decide (now - rl.period_seconds < t))).head? = some t0 ∧
        (wait_if_needed rl now).2.1 = rl.period_seconds - (now - t0) + 1 ∧
        t0 + rl.period_seconds < now + (wait_if_needed rl now).2.1) ∧
    (RateLimiter.mk0 5 1 0).period_seconds = 60 ∧
    (wait_if_needed (wait_if_needed (wait_if_needed (wait_if_needed
      (wait_if_needed (RateLimiter.mk0 5 1 0) 0).1 0).1 0).1 0).1 0).1 = rlAfter5 ∧
    (wait_if_needed rlAfter5 0).2.1 = 61 ∧
    (0 : ℚ) + 60 ≤ 0 + (wait_if_needed rlAfter5 0).2.1 := by
  have c1 : wait_if_needed (RateLimiter.mk0 5 1 0) 0 =
      ((⟨5, 60, 0, [0]⟩ : RateLimiter), 0, 0) := by
    norm_num [wait_if_needed, RateLimiter.mk0]
  have c2 : wait_if_needed (⟨5, 60, 0, [0]⟩ : RateLimiter) 0 =
      ((⟨5, 60, 0, [0, 0]⟩ : RateLimiter), 0, 0) := by
    norm_num [wait_if_needed, List.filter_cons, decide_eq_true_eq]
  have c3 : wait_if_needed (⟨5, 60, 0, [0, 0]⟩ : RateLimiter) 0 =
      ((⟨5, 60, 0, [0, 0, 0]⟩ : RateLimiter), 0, 0) := by
    norm_num [wait_if_needed, List.filter_cons, decide_eq_true_eq]
  have c4 : wait_if_needed (⟨5, 60, 0, [0, 0, 0]⟩ : RateLimiter) 0 =
      ((⟨5, 60, 0, [0, 0, 0, 0]⟩ : RateLimiter), 0, 0) := by
    norm_num [wait_if_needed, List.filter_cons, decide_eq_true_eq]
  have c5 : wait_if_needed (⟨5, 60, 0, [0, 0, 0, 0]⟩ : RateLimiter) 0 =
      ((⟨5, 60, 0, [0, 0, 0, 0, 0]⟩ : RateLimiter), 0, 0) := by
    norm_num [wait_if_needed, List.filter_cons, decide_eq_true_eq]
  have c6 : wait_if_needed rlAfter5 0 =
      ((⟨5, 60, 0, [0, 0, 0, 0, 0, 61]⟩ : RateLimiter), 61, 0) := by
    norm_num [wait_if_needed, rlAfter5, List.filter_cons, decide_eq_true_eq]
  refine ⟨rfl, ?_, by norm_num [RateLimiter.mk0],
    by simp only [c1, c2, c3, c4, c5]; rfl, by rw [c6], by rw [c6]; norm_num⟩
  intro hrpp hlen
  have hs1 : (wait_if_needed rl now).2.1 =
      (if rl.requests_per_period ≤
          (rl.request_timestamps.filter
            (fun t => decide (now - rl.period_seconds < t))).length then
        match rl.request_timestamps.filter
            (fun t => decide (now - rl.period_seconds < t)) with
        | t0 :: _ =>
            if 0 < rl.period_seconds - (now - t0) + 1 then
              rl.period_seconds - (now - t0) + 1
            else 0
        | [] => 0
      else 0) := rfl
  match hts : rl.request_timestamps.filter
      (fun t => decide (now - rl.period_seconds < t)) with
  | [] =>
      rw [hts] at hlen
      simp at hlen
      omega
  | t0 :: rest =>
      have ht0 : now - rl.period_seconds < t0 := by
        have hmem : t0 ∈ rl.request_timestamps.filter
            (fun t => decide (now - rl.period_seconds < t)) := by
          rw [hts]
          exact List.mem_cons_self t0 rest
        have := (List.mem_filter.mp hmem).2
        exact of_decide_eq_true this
      have hpos : 0 < rl.period_seconds - (now - t0) + 1 := by linarith
      have h2 : (wait_if_needed rl now).2.1 = rl.period_seconds - (now - t0) + 1 := by
        rw [hs1, hts, if_pos (by rw [hts] at hlen; exact hlen)]
        exact if_pos hpos
      refine ⟨t0, rfl, h2, ?_⟩
      rw [h2]
      linarith

/-- Witness for C8: the full-window sleep property applied to the state
after five immediate calls, at time 0. -/
theorem C8_witness :
    ∃ t0, (rlAfter5.request_timestamps.filter
        (fun t => decide ((0 : ℚ) - rlAfter5.period_seconds < t))).head? = some t0 ∧
      (wait_if_needed rlAfter5 0).2.1 = rlAfter5.period_seconds - (0 - t0) + 1 ∧
      t0 + rlAfter5.period_seconds < 0 + (wait_if_needed rlAfter5 0).2.1 :=
  (C8_rate_limiter_window rlAfter5 0).2.1 (by norm_num [rlAfter5])
    (by norm_num [rlAfter5, List.filter_cons, decide_eq_true_eq])

/-- C3 counterexample: a 200 response whose body lacks the `Count` field
is returned unchanged by `get_all_organizations` — no `APIError` is
raised for the missing shape, contradicting the claim. -/
theorem C3_counterexample :
    get_all_organizations ⟨3, 2⟩
        (fun _ => .resp 200 Option.none (.dict [("foo", .int 1)])) =
      .ok (.dict [("foo", .int 1)]) ∧
    recGet [("foo", PyVal.int 1)] "Count" = Option.none :=
  ⟨rfl, rfl⟩

/-- C3 (amended): `get_all_organizations` performs no presence
validation and raises no `APIError` — a 200 dictionary body whose
`Organisations` value, when present, is sized is returned unchanged even
when `Count` or `Organisations` is missing; the only raises on a 200
response are Python exceptions from the logging reads (`AttributeError`
for a non-dictionary body, `TypeError` for a present non-sized
`Organisations` value), not `APIError`s; the Count/Organisations shape
check the claim describes lives in `test_connection`, which returns
`false` — rather than raising — for a body missing either field. -/
theorem C3_get_all_organizations_amended :
    (∀ (cfg : ClientCfg) (attempts : Nat → AttemptOutcome) (ra : Option Nat)
      (kvs : List (String × PyVal)),
      attempts 0 = .resp 200 ra (.dict kvs) →
      pySized ((recGet kvs "Organisations").getD (.list [])) = true →
      get_all_organizations cfg attempts = .ok (.dict kvs)) ∧
    (∀ (cfg : ClientCfg) (attempts : Nat → AttemptOutcome) (ra : Option Nat) (body : PyVal),
      attempts 0 = .resp 200 ra body → pyIsDict body = false →
      get_all_organizations cfg attempts = .error (.attributeError
        ("\x27" ++ pyTypeName body ++ "\x27 object has no attribute \x27get\x27"))) ∧
    (∀ (cfg : ClientCfg) (attempts : Nat → AttemptOutcome) (ra : Option Nat)
      (kvs : List (String × PyVal)) (v : PyVal),
      attempts 0 = .resp 200 ra (.dict kvs) →
      recGet kvs "Organisations" = some v → pySized v = false →
      get_all_organizations cfg attempts = .error (.typeError
        ("object of type \x27" ++ pyTypeName v ++ "\x27 has no len()"))) ∧
    (∀ (cfg : ClientCfg) (attempts : Nat → AttemptOutcome) (ra : Option Nat)
      (kvs : List (String × PyVal)),
      attempts 0 = .resp 200 ra (.dict kvs) →
      ((recGet kvs "Count").isSome = false ∨ (recGet kvs "Organisations").isSome = false) →
      test_connection cfg attempts = false) := by
  have hmk : ∀ (cfg : ClientCfg) (attempts : Nat → AttemptOutcome) (ra : Option Nat)
      (body : PyVal), attempts 0 = .resp 200 ra body →
      make_request cfg attempts = .ok body := by
    intro cfg attempts ra body h
    show makeRequestAux cfg attempts 0 (cfg.max_retries + 1) = .ok body
    unfold makeRequestAux
    rw [h]
    rfl
  refine ⟨?_, ?_, ?_, ?_⟩
  · intro cfg attempts ra kvs h hsz
    unfold get_all_organizations
    rw [hmk cfg attempts ra _ h]
    simp [hsz]
  · intro cfg attempts ra body h hnd
    unfold get_all_organizations
    rw [hmk cfg attempts ra body h]
    match body with
    | .dict kvs => simp [pyIsDict] at hnd
    | .none => rfl
    | .str s => rfl
    | .int n => rfl
    | .float r => rfl
    | .bool b => rfl
    | .list xs => rfl
  · intro cfg attempts ra kvs v h hv hsz
    unfold get_all_organizations
    rw [hmk cfg attempts ra _ h]
    simp [hv, hsz]
  · intro cfg attempts ra kvs h hor
    have hred : get_all_organizations cfg attempts =
        (if pySized ((recGet kvs "Organisations").getD (.list [])) then
          .ok (PyVal.dict kvs)
        else .error (.typeError ("object of type \x27" ++
          pyTypeName ((recGet kvs "Organisations").getD (.list [])) ++
          "\x27 has no len()"))) := by
      unfold get_all_organizations
      rw [hmk cfg attempts ra _ h]
    unfold test_connection
    rw [hred]
    rcases hor with hc | hc <;>
      cases hsz : pySized ((recGet kvs "Organisations").getD (.list [])) <;>
      simp [hsz, hc]

/-- Witness for C3: the amended theorem applied to a dictionary body
that lacks `Count` yet is returned unchanged. -/
theorem C3_witness :
    get_all_organizations ⟨3, 2⟩
        (fun _ => .resp 200 Option.none
          (.dict [("Organisations", .list []), ("extra", .int 5)])) =
      .ok (.dict [("Organisations", .list []), ("extra", .int 5)]) :=
  C3_get_all_organizations_amended.1 ⟨3, 2⟩
    (fun _ => .resp 200 Option.none
      (.dict [("Organisations", .list []), ("extra", .int 5)]))
    Option.none [("Organisations", .list []), ("extra", .int 5)] rfl rfl

end SolicitorDict
